import Mathlib

/-!
Verification of the task-planning and orchestration core of the
LLM-Driven-Autonomous-Software-Engineer repository.

The development shallowly embeds the Python classes of
`src/core/task_planner.py`, `src/core/autonomous_engine.py` and
`src/core/memory_manager.py` as Lean definitions.  Python dictionaries
(which preserve insertion order) are embedded as association lists,
mutation becomes explicit state passing, Python floats are idealised as
rationals, raised exceptions become `Except` or `Option` values, and
wall-clock timestamps are supplied by the caller as opaque strings.
-/

set_option autoImplicit false

/-- Embeds the `TaskStatus` enum of `task_planner.py`. -/
inductive TaskStatus where
  | PENDING
  | IN_PROGRESS
  | COMPLETED
  | FAILED
  | BLOCKED
  deriving DecidableEq, Repr

/-- Embeds the `TaskPriority` enum of `task_planner.py`. -/
inductive TaskPriority where
  | LOW
  | MEDIUM
  | HIGH
  | CRITICAL
  deriving DecidableEq, Repr

/-- Embeds `TaskPriority.value`: the string payload of each enum member. -/
def TaskPriority.value : TaskPriority → String
  | .LOW => "low"
  | .MEDIUM => "medium"
  | .HIGH => "high"
  | .CRITICAL => "critical"

namespace TaskPlanner

/-- Embeds the `Task` dataclass of `task_planner.py`.  The `metadata`
dictionary only ever holds string values in the planner (`fail_task` stores a
failure reason), so it is embedded as an association list of strings. -/
structure Task where
  id : String
  title : String
  description : String
  status : TaskStatus
  priority : TaskPriority
  dependencies : List String
  task_type : String
  estimated_time : Option Nat
  actual_time : Option Nat
  created_at : Option String
  completed_at : Option String
  metadata : Option (List (String × String))
  deriving DecidableEq, Repr

/-- Embeds the mutable state of a `TaskPlanner` instance: the insertion-ordered
dictionary `self.tasks` and the counter `self.task_counter`. -/
structure PlannerState where
  tasks : List (String × Task)
  task_counter : Nat
  deriving DecidableEq, Repr

/-- Embeds `TaskPlanner.__init__`. -/
def PlannerState.init : PlannerState := { tasks := [], task_counter := 0 }

/-- Embeds assignment `d[k] = v` on a Python dict: an existing key keeps its
position and gets the new value, a new key is appended at the end. -/
def dictSet {β : Type} (k : String) (v : β) : List (String × β) → List (String × β)
  | [] => [(k, v)]
  | (k', v') :: rest => if k = k' then (k, v) :: rest else (k', v') :: dictSet k v rest

theorem lookup_dictSet_self {β : Type} (k : String) (v : β) (l : List (String × β)) :
    List.lookup k (dictSet k v l) = some v := by
  induction l with
  | nil => simp [dictSet, List.lookup]
  | cons p rest ih =>
    obtain ⟨k', v'⟩ := p
    by_cases h : k = k'
    · have hb : (k == k') = true := beq_iff_eq.mpr h
      simp [dictSet, h, List.lookup, hb]
    · have hb : (k == k') = false := beq_eq_false_iff_ne.mpr h
      simp [dictSet, h, List.lookup, hb, ih]

theorem lookup_dictSet_ne {β : Type} (k k' : String) (v : β) (l : List (String × β))
    (h : k' ≠ k) : List.lookup k' (dictSet k v l) = List.lookup k' l := by
  have hb : (k' == k) = false := beq_eq_false_iff_ne.mpr h
  induction l with
  | nil => simp [dictSet, List.lookup, hb]
  | cons p rest ih =>
    obtain ⟨k0, v0⟩ := p
    by_cases hk : k = k0
    · subst hk
      simp [dictSet, List.lookup, hb]
    · simp [dictSet, hk, List.lookup, ih]

theorem length_dictSet_of_lookup_none {β : Type} (k : String) (v : β)
    (l : List (String × β)) (h : List.lookup k l = none) :
    (dictSet k v l).length = l.length + 1 := by
  induction l with
  | nil => simp [dictSet]
  | cons p rest ih =>
    obtain ⟨k0, v0⟩ := p
    by_cases hk : k = k0
    · have hb : (k == k0) = true := beq_iff_eq.mpr hk
      simp [List.lookup, hb] at h
    · have hb : (k == k0) = false := beq_eq_false_iff_ne.mpr hk
      simp only [List.lookup, hb] at h
      simp [dictSet, hk, ih h]

/-- Embeds the id format string `f"task_{self.task_counter:04d}"`: the decimal
digits of the counter left-padded with zeros to at least four characters. -/
def taskId (n : Nat) : String :=
  "task_" ++ (String.mk (List.replicate (4 - (toString n).length) '0') ++ toString n)

/-- Embeds `TaskPlanner.create_task`.  The timestamp recorded in `created_at`
is produced by `datetime.now()` in Python and is passed in by the caller here.
The Python function returns the new task id (despite its annotation). -/
def create_task (s : PlannerState) (title description : String)
    (priority : TaskPriority) (dependencies : List String) (task_type : String)
    (estimated_time : Option Nat) (metadata : Option (List (String × String)))
    (ts : String) : String × PlannerState :=
  let task_id := taskId s.task_counter
  let task : Task :=
    { id := task_id, title := title, description := description,
      status := TaskStatus.PENDING, priority := priority,
      dependencies := dependencies, task_type := task_type,
      estimated_time := estimated_time, actual_time := none,
      created_at := some ts, completed_at := none, metadata := metadata }
  (task_id, { tasks := dictSet task_id task s.tasks,
              task_counter := s.task_counter + 1 })

/-- Embeds `TaskPlanner._are_dependencies_completed`: false as soon as a
dependency id is absent from the task dictionary or its task is not
`COMPLETED`. -/
def are_dependencies_completed (s : PlannerState) : List String → Bool
  | [] => true
  | d :: rest =>
    match List.lookup d s.tasks with
    | none => false
    | some t =>
      if t.status ≠ TaskStatus.COMPLETED then false
      else are_dependencies_completed s rest

/-- Embeds `TaskPlanner.start_task`; the returned pair is the Python return
value together with the planner state after the call. -/
def start_task (s : PlannerState) (task_id : String) : Bool × PlannerState :=
  match List.lookup task_id s.tasks with
  | none => (false, s)
  | some task =>
    if task.status ≠ TaskStatus.PENDING then (false, s)
    else if ¬ are_dependencies_completed s task.dependencies then (false, s)
    else
      let task' := { task with status := TaskStatus.IN_PROGRESS }
      (true, { s with tasks := dictSet task_id task' s.tasks })

/-- Embeds `TaskPlanner.complete_task`; `ts` stands for the
`datetime.now()` timestamp stored in `completed_at`. -/
def complete_task (s : PlannerState) (task_id : String)
    (actual_time : Option Nat) (ts : String) : Bool × PlannerState :=
  match List.lookup task_id s.tasks with
  | none => (false, s)
  | some task =>
    if task.status ≠ TaskStatus.IN_PROGRESS then (false, s)
    else
      let task' := { task with status := TaskStatus.COMPLETED,
                               actual_time := actual_time,
                               completed_at := some ts }
      (true, { s with tasks := dictSet task_id task' s.tasks })

/-- Embeds `TaskPlanner.fail_task`: unconditionally marks an existing task
`FAILED` and records the reason in its metadata dictionary. -/
def fail_task (s : PlannerState) (task_id : String) (reason : String) :
    Bool × PlannerState :=
  match List.lookup task_id s.tasks with
  | none => (false, s)
  | some task =>
    let md := match task.metadata with
      | none => [("failure_reason", reason)]
      | some m => dictSet "failure_reason" reason m
    let task' := { task with status := TaskStatus.FAILED, metadata := some md }
    (true, { s with tasks := dictSet task_id task' s.tasks })

/-- Embeds `TaskPlanner.get_task_by_id` (`self.tasks.get(task_id)`). -/
def get_task_by_id (s : PlannerState) (task_id : String) : Option Task :=
  List.lookup task_id s.tasks

theorem are_dependencies_completed_iff (s : PlannerState) (deps : List String) :
    are_dependencies_completed s deps = true ↔
      ∀ d ∈ deps, ∃ t, List.lookup d s.tasks = some t ∧
        t.status = TaskStatus.COMPLETED := by
  induction deps with
  | nil => simp [are_dependencies_completed]
  | cons d rest ih =>
    simp only [are_dependencies_completed, List.mem_cons]
    cases hd : List.lookup d s.tasks with
    | none =>
      simp only [Bool.false_eq_true, false_iff]
      intro hall
      obtain ⟨t, ht, _⟩ := hall d (Or.inl rfl)
      simp [hd] at ht
    | some t =>
      by_cases hst : t.status = TaskStatus.COMPLETED
      · simp only [hst, ne_eq, not_true_eq_false, if_false, ite_false, ih]
        constructor
        · intro hall x hx
          rcases hx with hx | hx
          · exact ⟨t, by simp [hx, hd], by simp [hst]⟩
          · exact hall x hx
        · intro hall x hx
          exact hall x (Or.inr hx)
      · simp only [ne_eq, hst, not_false_eq_true, if_true, Bool.false_eq_true,
          false_iff]
        intro hall
        obtain ⟨t', ht', hc⟩ := hall d (Or.inl rfl)
        rw [hd] at ht'
        exact hst (by cases ht'; exact hc)

/-- A concrete task record used to instantiate the theorems below. -/
def sampleTaskAt (i : String) (st : TaskStatus) (pr : TaskPriority)
    (deps : List String) : Task :=
  { id := i, title := "t", description := "d", status := st,
    priority := pr, dependencies := deps, task_type := "generic",
    estimated_time := none, actual_time := none, created_at := none,
    completed_at := none, metadata := none }

/-- A concrete task record with the default id. -/
def sampleTask (st : TaskStatus) (pr : TaskPriority) (deps : List String) :
    Task :=
  sampleTaskAt "task_0000" st pr deps

/-- C1: `start_task(T)` returns true iff `T` is `PENDING` and every dependency
id names an existing `COMPLETED` task; a false return leaves the planner state
unchanged, and a true return changes exactly `T.status` to `IN_PROGRESS`. -/
theorem start_task_spec (s : PlannerState) (tid : String) (task : Task)
    (hfind : List.lookup tid s.tasks = some task) :
    ((start_task s tid).1 = true ↔
        task.status = TaskStatus.PENDING ∧
          ∀ d ∈ task.dependencies, ∃ t, List.lookup d s.tasks = some t ∧
            t.status = TaskStatus.COMPLETED) ∧
    ((start_task s tid).1 = false → (start_task s tid).2 = s) ∧
    ((start_task s tid).1 = true →
        (start_task s tid).2 =
          { s with tasks := dictSet tid { task with status := TaskStatus.IN_PROGRESS } s.tasks }) := by
  have hdep := are_dependencies_completed_iff s task.dependencies
  by_cases hp : task.status = TaskStatus.PENDING
  · by_cases hd : are_dependencies_completed s task.dependencies = true
    · simp only [start_task, hfind, hp, hd]
      simp
      exact hdep.mp hd
    · have hB : ¬ ∀ d ∈ task.dependencies, ∃ t,
          List.lookup d s.tasks = some t ∧ t.status = TaskStatus.COMPLETED :=
        fun hb => hd (hdep.mpr hb)
      simp [start_task, hfind, hp, hd, hB]
  · simp [start_task, hfind, hp]

theorem start_task_spec_witness :
    (List.lookup "task_0000"
        [("task_0000", sampleTask TaskStatus.PENDING TaskPriority.MEDIUM [])] =
      some (sampleTask TaskStatus.PENDING TaskPriority.MEDIUM [])) ∧
    ((start_task ⟨[("task_0000",
          sampleTask TaskStatus.PENDING TaskPriority.MEDIUM [])], 1⟩
        "task_0000").1 = true ↔
      (sampleTask TaskStatus.PENDING TaskPriority.MEDIUM []).status =
          TaskStatus.PENDING ∧
        ∀ d ∈ (sampleTask TaskStatus.PENDING TaskPriority.MEDIUM
            []).dependencies,
          ∃ t, List.lookup d (PlannerState.mk
              [("task_0000",
                sampleTask TaskStatus.PENDING TaskPriority.MEDIUM [])]
              1).tasks = some t ∧
            t.status = TaskStatus.COMPLETED) ∧
    ((start_task ⟨[("task_0000",
          sampleTask TaskStatus.PENDING TaskPriority.MEDIUM [])], 1⟩
        "task_0000").1 = false →
      (start_task ⟨[("task_0000",
          sampleTask TaskStatus.PENDING TaskPriority.MEDIUM [])], 1⟩
        "task_0000").2 =
        ⟨[("task_0000",
          sampleTask TaskStatus.PENDING TaskPriority.MEDIUM [])], 1⟩) ∧
    ((start_task ⟨[("task_0000",
          sampleTask TaskStatus.PENDING TaskPriority.MEDIUM [])], 1⟩
        "task_0000").1 = true →
      (start_task ⟨[("task_0000",
          sampleTask TaskStatus.PENDING TaskPriority.MEDIUM [])], 1⟩
        "task_0000").2 =
        { PlannerState.mk
            [("task_0000",
              sampleTask TaskStatus.PENDING TaskPriority.MEDIUM [])] 1 with
          tasks := dictSet "task_0000"
            { sampleTask TaskStatus.PENDING TaskPriority.MEDIUM [] with
              status := TaskStatus.IN_PROGRESS }
            [("task_0000",
              sampleTask TaskStatus.PENDING TaskPriority.MEDIUM [])] }) :=
  ⟨by decide, start_task_spec _ _ _ (by decide)⟩

/-- C6: `complete_task(T)` returns true exactly when `T` is `IN_PROGRESS`, in
which case it marks `T` `COMPLETED` and records `completed_at`; a second call
on the now-`COMPLETED` task returns false and changes nothing. -/
theorem complete_task_spec (s : PlannerState) (tid : String) (task : Task)
    (at1 at2 : Option Nat) (ts ts2 : String)
    (hfind : List.lookup tid s.tasks = some task) :
    ((complete_task s tid at1 ts).1 = true ↔
        task.status = TaskStatus.IN_PROGRESS) ∧
    ((complete_task s tid at1 ts).1 = false →
        (complete_task s tid at1 ts).2 = s) ∧
    (task.status = TaskStatus.IN_PROGRESS →
        (complete_task s tid at1 ts).2 =
          { s with tasks := dictSet tid { task with status := TaskStatus.COMPLETED, actual_time := at1, completed_at := some ts } s.tasks } ∧
        (complete_task (complete_task s tid at1 ts).2 tid at2 ts2).1 = false ∧
        (complete_task (complete_task s tid at1 ts).2 tid at2 ts2).2 =
          (complete_task s tid at1 ts).2) := by
  by_cases hip : task.status = TaskStatus.IN_PROGRESS
  · refine ⟨by simp [complete_task, hfind, hip], by simp [complete_task, hfind, hip], fun _ => ⟨by simp [complete_task, hfind, hip], ?_, ?_⟩⟩
    · simp [complete_task, hfind, hip, lookup_dictSet_self]
    · simp [complete_task, hfind, hip, lookup_dictSet_self]
  · simp [complete_task, hfind, hip]

theorem complete_task_spec_witness :
    (List.lookup "task_0000"
        [("task_0000",
          sampleTask TaskStatus.IN_PROGRESS TaskPriority.MEDIUM [])] =
      some (sampleTask TaskStatus.IN_PROGRESS TaskPriority.MEDIUM [])) ∧
    (((complete_task ⟨[("task_0000",
          sampleTask TaskStatus.IN_PROGRESS TaskPriority.MEDIUM [])], 1⟩
        "task_0000" (some 5) "2024-01-01").1 = true ↔
      (sampleTask TaskStatus.IN_PROGRESS TaskPriority.MEDIUM []).status =
        TaskStatus.IN_PROGRESS) ∧
    (((complete_task ⟨[("task_0000",
          sampleTask TaskStatus.IN_PROGRESS TaskPriority.MEDIUM [])], 1⟩
        "task_0000" (some 5) "2024-01-01").1 = false →
      (complete_task ⟨[("task_0000",
          sampleTask TaskStatus.IN_PROGRESS TaskPriority.MEDIUM [])], 1⟩
        "task_0000" (some 5) "2024-01-01").2 =
        ⟨[("task_0000",
          sampleTask TaskStatus.IN_PROGRESS TaskPriority.MEDIUM [])], 1⟩) ∧
    ((sampleTask TaskStatus.IN_PROGRESS TaskPriority.MEDIUM []).status =
        TaskStatus.IN_PROGRESS →
      (complete_task ⟨[("task_0000",
          sampleTask TaskStatus.IN_PROGRESS TaskPriority.MEDIUM [])], 1⟩
        "task_0000" (some 5) "2024-01-01").2 =
        { PlannerState.mk
            [("task_0000",
              sampleTask TaskStatus.IN_PROGRESS TaskPriority.MEDIUM [])] 1 with
          tasks := dictSet "task_0000" { sampleTask TaskStatus.IN_PROGRESS TaskPriority.MEDIUM [] with status := TaskStatus.COMPLETED, actual_time := some 5, completed_at := some "2024-01-01" } [("task_0000", sampleTask TaskStatus.IN_PROGRESS TaskPriority.MEDIUM [])] } ∧
      (complete_task (complete_task ⟨[("task_0000",
          sampleTask TaskStatus.IN_PROGRESS TaskPriority.MEDIUM [])], 1⟩
        "task_0000" (some 5) "2024-01-01").2 "task_0000" none "2024-02-02").1 =
        false ∧
      (complete_task (complete_task ⟨[("task_0000",
          sampleTask TaskStatus.IN_PROGRESS TaskPriority.MEDIUM [])], 1⟩
        "task_0000" (some 5) "2024-01-01").2 "task_0000" none "2024-02-02").2 =
        (complete_task ⟨[("task_0000",
          sampleTask TaskStatus.IN_PROGRESS TaskPriority.MEDIUM [])], 1⟩
        "task_0000" (some 5) "2024-01-01").2))) :=
  ⟨by decide, complete_task_spec _ _ _ _ _ _ _ (by decide)⟩

/-- Lexicographic strict comparison of character lists by code point, the
order Python uses to compare strings. -/
def charsLt : List Char → List Char → Bool
  | [], [] => false
  | [], _ :: _ => true
  | _ :: _, [] => false
  | c :: cs, d :: ds =>
    if c.toNat < d.toNat then true
    else if d.toNat < c.toNat then false
    else charsLt cs ds

/-- Python string `<`. -/
def strLt (a b : String) : Bool := charsLt a.data b.data

/-- Embeds Python `sorted(l, key=key, reverse=True)` for string keys, by
stable insertion: an element moves past another only when its key is strictly
smaller, which is exactly stable descending order. -/
def insertRevBy {α : Type} (key : α → String) (a : α) : List α → List α
  | [] => [a]
  | b :: l => if strLt (key a) (key b) then b :: insertRevBy key a l else a :: b :: l

/-- Stable descending sort by a string key, as Python `sorted(..., reverse=True)`. -/
def sortedRevBy {α : Type} (key : α → String) : List α → List α
  | [] => []
  | a :: l => insertRevBy key a (sortedRevBy key l)

/-- Embeds `TaskPlanner.get_ready_tasks`: the `PENDING` tasks whose
dependencies are all completed, in insertion order, then passed to
`sorted(..., key=lambda t: t.priority.value, reverse=True)`.  Note that the
sort key is the string payload of the priority enum. -/
def get_ready_tasks (s : PlannerState) : List Task :=
  let ready := (s.tasks.map Prod.snd).filter
    (fun t => t.status == TaskStatus.PENDING &&
      are_dependencies_completed s t.dependencies)
  sortedRevBy (fun t => t.priority.value) ready

/-- A planner holding one ready CRITICAL task and one ready MEDIUM task, the
CRITICAL one created first. -/
def readyBugState : PlannerState :=
  ⟨[("task_0000", sampleTaskAt "task_0000" TaskStatus.PENDING TaskPriority.CRITICAL []),
    ("task_0001", sampleTaskAt "task_0001" TaskStatus.PENDING TaskPriority.MEDIUM [])], 2⟩

/-- C7 counterexample: on a planner whose ready tasks are a CRITICAL task and
a MEDIUM task, `get_ready_tasks` returns the MEDIUM task first, because the
code sorts by the string payload of the priority (`"medium" > "critical"`
lexicographically) instead of by priority rank.  This contradicts the claimed
CRITICAL-before-MEDIUM order. -/
theorem get_ready_tasks_order_bug :
    readyBugState.tasks.map (fun p => (p.2.priority, p.2.status)) =
      [(TaskPriority.CRITICAL, TaskStatus.PENDING),
       (TaskPriority.MEDIUM, TaskStatus.PENDING)] ∧
    (get_ready_tasks readyBugState).map Task.priority =
      [TaskPriority.MEDIUM, TaskPriority.CRITICAL] ∧
    (get_ready_tasks readyBugState).map Task.priority ≠
      [TaskPriority.CRITICAL, TaskPriority.MEDIUM] := by
  refine ⟨rfl, by decide, by decide⟩

/-- Python `round` to the nearest integer, halves to the even neighbour, on
the rational idealisation of floats used throughout this development.  `f` is
the floor of `x` (`Int.fdiv` is floor division and `x.den` is positive) and
`rem / x.den` its fractional part, compared against one half by
cross-multiplication. -/
def pyRoundInt (x : ℚ) : ℤ :=
  let f := Int.fdiv x.num x.den
  let rem := x.num - f * x.den
  if 2 * rem < (x.den : ℤ) then f
  else if (x.den : ℤ) < 2 * rem then f + 1
  else if f % 2 = 0 then f else f + 1

/-- Python `round(x, 2)`. -/
def pyRound2 (x : ℚ) : ℚ := (pyRoundInt (x * 100) : ℚ) / 100

/-- Return value of `TaskPlanner.get_task_progress`: the zero-task branch
returns the two-field dictionary `{"progress": 0, "status": "No tasks"}`, the
other branch a seven-field dictionary; one constructor per shape. -/
inductive ProgressReport where
  | noTasks (progress : Nat) (status : String)
  | report (total_tasks completed in_progress failed pending : Nat)
      (progress_percentage : ℚ) (status : String)
  deriving DecidableEq, Repr

/-- The `status` field of either report shape. -/
def ProgressReport.statusOf : ProgressReport → String
  | .noTasks _ st => st
  | .report _ _ _ _ _ _ st => st

/-- The `progress_percentage` field, absent from the zero-task shape. -/
def ProgressReport.percentageOf : ProgressReport → Option ℚ
  | .noTasks _ _ => none
  | .report _ _ _ _ _ pct _ => some pct

/-- Embeds `sum(1 for t in self.tasks.values() if t.status == COMPLETED)`. -/
def completedCount (s : PlannerState) : Nat :=
  (s.tasks.map Prod.snd).countP (fun t => t.status == TaskStatus.COMPLETED)

/-- Embeds the `in_progress` count of `get_task_progress`. -/
def inProgressCount (s : PlannerState) : Nat :=
  (s.tasks.map Prod.snd).countP (fun t => t.status == TaskStatus.IN_PROGRESS)

/-- Embeds the `failed` count of `get_task_progress`. -/
def failedCount (s : PlannerState) : Nat :=
  (s.tasks.map Prod.snd).countP (fun t => t.status == TaskStatus.FAILED)

/-- Embeds the `pending` count of `get_task_progress`. -/
def pendingCount (s : PlannerState) : Nat :=
  (s.tasks.map Prod.snd).countP (fun t => t.status == TaskStatus.PENDING)

/-- Embeds `TaskPlanner._get_overall_status`. -/
def get_overall_status (completed failed total : Nat) : String :=
  if failed > 0 then "has_issues"
  else if completed = total then "completed"
  else if completed > 0 then "in_progress"
  else "not_started"

/-- Embeds `TaskPlanner.get_task_progress`.  `progress` is computed as
`(completed / total_tasks) * 100` on floats, idealised as rationals, and
rounded with `round(progress, 2)`. -/
def get_task_progress (s : PlannerState) : ProgressReport :=
  if s.tasks.length = 0 then ProgressReport.noTasks 0 "No tasks"
  else
    ProgressReport.report s.tasks.length (completedCount s) (inProgressCount s)
      (failedCount s) (pendingCount s)
      (pyRound2 (((completedCount s : ℚ) / (s.tasks.length : ℚ)) * 100))
      (get_overall_status (completedCount s) (failedCount s) s.tasks.length)

/-- C5: on a non-empty task set the reported percentage equals
`round(100*completed/total, 2)` and the reported status follows the claimed
four-way classification, with `has_issues` taking precedence whenever a task
failed. -/
theorem get_task_progress_spec (s : PlannerState) (h : s.tasks ≠ []) :
    ((get_task_progress s).percentageOf =
      some (pyRound2 (100 * (completedCount s : ℚ) / (s.tasks.length : ℚ)))) ∧
    (0 < failedCount s → (get_task_progress s).statusOf = "has_issues") ∧
    (failedCount s = 0 ∧ completedCount s = s.tasks.length →
      (get_task_progress s).statusOf = "completed") ∧
    (failedCount s = 0 ∧ 0 < completedCount s ∧
        completedCount s < s.tasks.length →
      (get_task_progress s).statusOf = "in_progress") ∧
    (completedCount s = 0 ∧ failedCount s = 0 →
      (get_task_progress s).statusOf = "not_started") := by
  have hlen : s.tasks.length ≠ 0 := by
    simpa using h
  refine ⟨?_, ?_, ?_, ?_, ?_⟩
  · simp only [get_task_progress, if_neg hlen, ProgressReport.percentageOf,
      Option.some.injEq]
    congr 1
    ring
  · intro hf
    simp [get_task_progress, if_neg hlen, ProgressReport.statusOf,
      get_overall_status, hf, h]
  · rintro ⟨hf, hc⟩
    simp [get_task_progress, if_neg hlen, ProgressReport.statusOf,
      get_overall_status, hf, hc, h]
  · rintro ⟨hf, hc0, hclt⟩
    simp [get_task_progress, if_neg hlen, ProgressReport.statusOf,
      get_overall_status, hf, hc0, Nat.ne_of_lt hclt, h]
  · rintro ⟨hc, hf⟩
    have hz : ¬ (0 = s.tasks.length) := fun he => hlen he.symm
    simp [get_task_progress, if_neg hlen, ProgressReport.statusOf,
      get_overall_status, hf, hc, h, hz]

/-- A planner with one COMPLETED, one FAILED and one PENDING task. -/
def progressSampleState : PlannerState :=
  ⟨[("task_0000", sampleTaskAt "task_0000" TaskStatus.COMPLETED TaskPriority.MEDIUM []),
    ("task_0001", sampleTaskAt "task_0001" TaskStatus.FAILED TaskPriority.HIGH []),
    ("task_0002", sampleTaskAt "task_0002" TaskStatus.PENDING TaskPriority.LOW [])], 3⟩

theorem get_task_progress_spec_witness :
    progressSampleState.tasks ≠ [] ∧
    (((get_task_progress progressSampleState).percentageOf =
      some (pyRound2 (100 * (completedCount progressSampleState : ℚ) /
        (progressSampleState.tasks.length : ℚ)))) ∧
    (0 < failedCount progressSampleState →
      (get_task_progress progressSampleState).statusOf = "has_issues") ∧
    (failedCount progressSampleState = 0 ∧
        completedCount progressSampleState =
          progressSampleState.tasks.length →
      (get_task_progress progressSampleState).statusOf = "completed") ∧
    (failedCount progressSampleState = 0 ∧
        0 < completedCount progressSampleState ∧
        completedCount progressSampleState <
          progressSampleState.tasks.length →
      (get_task_progress progressSampleState).statusOf = "in_progress") ∧
    (completedCount progressSampleState = 0 ∧
        failedCount progressSampleState = 0 →
      (get_task_progress progressSampleState).statusOf = "not_started")) :=
  ⟨by decide, get_task_progress_spec progressSampleState (by decide)⟩

/-- C10: on a planner holding zero tasks `get_task_progress` returns the
two-field dictionary `{"progress": 0, "status": "No tasks"}`, whose shape
lacks the seven fields of the non-empty case and whose status value lies
outside the documented status domain. -/
theorem get_task_progress_empty (n : Nat) :
    get_task_progress ⟨[], n⟩ = ProgressReport.noTasks 0 "No tasks" ∧
    (get_task_progress ⟨[], n⟩).percentageOf = none ∧
    "No tasks" ∉ ["not_started", "has_issues", "completed", "in_progress"] :=
  ⟨rfl, rfl, by decide⟩

/-- The fixed phase table of `TaskPlanner.plan_from_requirement`: title,
description and priority of each development phase, in source order. -/
def planPhases : List (String × String × TaskPriority) :=
  [("Requirements Analysis", "Analyze and clarify the requirements", TaskPriority.HIGH),
   ("Architecture Design", "Design the system architecture", TaskPriority.HIGH),
   ("Database Design", "Design database schema and models", TaskPriority.MEDIUM),
   ("Backend Development", "Implement backend API and logic", TaskPriority.HIGH),
   ("Frontend Development", "Implement user interface", TaskPriority.MEDIUM),
   ("Testing", "Write and run tests", TaskPriority.MEDIUM),
   ("Documentation", "Create user and technical documentation", TaskPriority.LOW),
   ("Deployment", "Deploy the application", TaskPriority.HIGH)]

/-- The loop body of `plan_from_requirement`: walk the phase table, creating
one task per phase, each depending on the previously created task id; `idx`
numbers the `datetime.now()` calls handed to the clock oracle. -/
def plan_go (s : PlannerState) (requirement : String) (clock : Nat → String)
    (idx : Nat) (prev : Option String) :
    List (String × String × TaskPriority) → List String × PlannerState
  | [] => ([], s)
  | (title, description, priority) :: rest =>
    let dependencies := match prev with
      | some p => [p]
      | none => []
    let task_type := (title.toLower).replace " " "_"
    let (task_id, s1) := create_task s title (description ++ " for: " ++ requirement)
      priority dependencies task_type (some 60) none (clock idx)
    let (ids, s2) := plan_go s1 requirement clock (idx + 1) (some task_id) rest
    (task_id :: ids, s2)

/-- Embeds `TaskPlanner.plan_from_requirement`. -/
def plan_from_requirement (s : PlannerState) (requirement : String)
    (clock : Nat → String) : List String × PlannerState :=
  plan_go s requirement clock 0 none planPhases

set_option maxHeartbeats 3200000 in
/-- C2: on a planner in its initial state, `plan_from_requirement` creates
exactly eight tasks and returns their ids in creation order; the id list does
not depend on the requirement, the first task has no dependency and every
later task depends exactly on its immediate predecessor. -/
theorem plan_from_requirement_chain (r r' : String) (clock clock' : Nat → String) :
    (plan_from_requirement PlannerState.init r clock).1 =
      ["task_0000", "task_0001", "task_0002", "task_0003",
       "task_0004", "task_0005", "task_0006", "task_0007"] ∧
    (plan_from_requirement PlannerState.init r' clock').1 =
      (plan_from_requirement PlannerState.init r clock).1 ∧
    ((plan_from_requirement PlannerState.init r clock).2).tasks.length = 8 ∧
    Option.map Task.dependencies
      (get_task_by_id (plan_from_requirement PlannerState.init r clock).2 "task_0000") = some [] ∧
    Option.map Task.dependencies
      (get_task_by_id (plan_from_requirement PlannerState.init r clock).2 "task_0001") = some ["task_0000"] ∧
    Option.map Task.dependencies
      (get_task_by_id (plan_from_requirement PlannerState.init r clock).2 "task_0002") = some ["task_0001"] ∧
    Option.map Task.dependencies
      (get_task_by_id (plan_from_requirement PlannerState.init r clock).2 "task_0003") = some ["task_0002"] ∧
    Option.map Task.dependencies
      (get_task_by_id (plan_from_requirement PlannerState.init r clock).2 "task_0004") = some ["task_0003"] ∧
    Option.map Task.dependencies
      (get_task_by_id (plan_from_requirement PlannerState.init r clock).2 "task_0005") = some ["task_0004"] ∧
    Option.map Task.dependencies
      (get_task_by_id (plan_from_requirement PlannerState.init r clock).2 "task_0006") = some ["task_0005"] ∧
    Option.map Task.dependencies
      (get_task_by_id (plan_from_requirement PlannerState.init r clock).2 "task_0007") = some ["task_0006"] := by
  have t0 : taskId 0 = "task_0000" := rfl
  have t1 : taskId 1 = "task_0001" := rfl
  have t2 : taskId 2 = "task_0002" := rfl
  have t3 : taskId 3 = "task_0003" := rfl
  have t4 : taskId 4 = "task_0004" := rfl
  have t5 : taskId 5 = "task_0005" := rfl
  have t6 : taskId 6 = "task_0006" := rfl
  have t7 : taskId 7 = "task_0007" := rfl
  refine ⟨?_, ?_, ?_, ?_, ?_, ?_, ?_, ?_, ?_, ?_, ?_⟩ <;>
    simp [plan_from_requirement, plan_go, planPhases, create_task,
      get_task_by_id, dictSet, List.lookup, PlannerState.init,
      t0, t1, t2, t3, t4, t5, t6, t7]

end TaskPlanner

/-- Observable behaviour of one run of a function wrapped by the
`retry_with_backoff` decorator of `autonomous_engine.py`: the value returned
or exception raised, the sleeps performed between attempts, and how many
times the wrapped function was invoked.  A raised `none` stands for the
`raise last_exception` of a run whose loop never executed
(`max_retries = 0`, where `last_exception` is still `None`). -/
structure RetryTrace (ε α : Type) where
  result : Except (Option ε) α
  delays : List ℚ
  calls : Nat

/-- The retry loop of `retry_with_backoff`, one recursion step per remaining
loop iteration: the first `Nat` is the number of loop iterations still to
run (`max_retries - attempt`) and the second the current 0-based attempt
index.  The wrapped call is an oracle `op` giving each attempt's outcome.  A
successful attempt returns; a failure of the last attempt
(`attempt == max_retries - 1`) re-raises its error; any earlier failure
sleeps `min(base_delay * 2 ** attempt, max_delay)` and retries. -/
def retryAux {ε α : Type} (op : Nat → Except ε α) (base maxd : ℚ) :
    Nat → Nat → RetryTrace ε α
  | 0, _ => ⟨Except.error none, [], 0⟩
  | 1, attempt =>
    match op attempt with
    | Except.ok a => ⟨Except.ok a, [], 1⟩
    | Except.error e => ⟨Except.error (some e), [], 1⟩
  | f + 2, attempt =>
    match op attempt with
    | Except.ok a => ⟨Except.ok a, [], 1⟩
    | Except.error _ =>
      let d := min (base * 2 ^ attempt) maxd
      let t := retryAux op base maxd (f + 1) (attempt + 1)
      ⟨t.result, d :: t.delays, t.calls + 1⟩

/-- Embeds the decorator `retry_with_backoff(max_retries, base_delay,
max_delay)` applied to an operation. -/
def retry_with_backoff {ε α : Type} (max_retries : Nat)
    (base_delay max_delay : ℚ) (op : Nat → Except ε α) : RetryTrace ε α :=
  retryAux op base_delay max_delay max_retries 0

theorem retryAux_allFail (ε α : Type) (errs : Nat → ε) (base maxd : ℚ) :
    ∀ fuel attempt : Nat,
      retryAux (fun i => (Except.error (errs i) : Except ε α)) base maxd
          (fuel + 1) attempt =
        ⟨Except.error (some (errs (attempt + fuel))),
          (List.range fuel).map (fun j => min (base * 2 ^ (attempt + j)) maxd),
          fuel + 1⟩ := by
  intro fuel
  induction fuel with
  | zero =>
    intro attempt
    simp [retryAux]
  | succ f ih =>
    intro attempt
    show retryAux _ base maxd (f + 2) attempt = _
    simp only [retryAux]
    rw [ih (attempt + 1)]
    refine congrArg₂ (fun x y => RetryTrace.mk x y (f + 1 + 1)) ?_ ?_
    · have harg : attempt + 1 + f = attempt + (f + 1) := by omega
      rw [harg]
    · rw [List.range_succ_eq_map, List.map_cons, List.map_map]
      have h0 : attempt + 0 = attempt := by omega
      rw [h0]
      refine congrArg (min (base * 2 ^ attempt) maxd :: ·) ?_
      refine List.map_congr_left ?_
      intro j _
      have hj : attempt + 1 + j = attempt + (j + 1) := by omega
      simp [Function.comp, hj, Nat.succ_eq_add_one]

/-- C3: with `max_retries = N` and an operation failing on every attempt, the
retry loop invokes the operation exactly `N` times, finally raises the error
of the `N`-th attempt, and sleeps `min(base_delay * 2^(k-2), max_delay)`
before attempt `k` for every `2 ≤ k ≤ N`. -/
theorem retry_with_backoff_exhaustion (ε α : Type) (N : Nat) (hN : 1 ≤ N)
    (base maxd : ℚ) (errs : Nat → ε) :
    (retry_with_backoff N base maxd
        (fun i => (Except.error (errs i) : Except ε α))).calls = N ∧
    (retry_with_backoff N base maxd
        (fun i => (Except.error (errs i) : Except ε α))).result =
      Except.error (some (errs (N - 1))) ∧
    (retry_with_backoff N base maxd
        (fun i => (Except.error (errs i) : Except ε α))).delays =
      (List.range (N - 1)).map (fun j => min (base * 2 ^ j) maxd) ∧
    (∀ k, 2 ≤ k → k ≤ N →
      (retry_with_backoff N base maxd
          (fun i => (Except.error (errs i) : Except ε α))).delays[k - 2]? =
        some (min (base * 2 ^ (k - 2)) maxd)) := by
  obtain ⟨M, rfl⟩ : ∃ M, N = M + 1 := ⟨N - 1, by omega⟩
  have h := retryAux_allFail ε α errs base maxd M 0
  rw [retry_with_backoff, h]
  refine ⟨rfl, by simp, by simp, ?_⟩
  intro k h2 hk
  have hlt : k - 2 < M := by omega
  simp only [Nat.add_sub_cancel]
  rw [List.getElem?_map, List.getElem?_range hlt]
  simp

/-- The retry policy `@retry_with_backoff(max_retries=3, base_delay=2.0)`
that wraps `AutonomousEngine.build_application` (default `max_delay=60.0`). -/
def build_application_retry {ε α : Type} (op : Nat → Except ε α) :
    RetryTrace ε α :=
  retry_with_backoff 3 2 60 op

/-- The retry policy `@retry_with_backoff(max_retries=2, base_delay=1.0)`
that wraps `AutonomousEngine._execute_task` (default `max_delay=60.0`). -/
def execute_task_retry {ε α : Type} (op : Nat → Except ε α) :
    RetryTrace ε α :=
  retry_with_backoff 2 1 60 op

/-- C8: at both retry layers, the whole-build wrapper (3 attempts) and the
per-task wrapper (2 attempts), exhausting the retry budget re-raises the
error of the final underlying attempt to the caller. -/
theorem retry_layers_reraise (ε α : Type) (errs : Nat → ε) :
    (build_application_retry
        (fun i => (Except.error (errs i) : Except ε α))).result =
      Except.error (some (errs 2)) ∧
    (build_application_retry
        (fun i => (Except.error (errs i) : Except ε α))).calls = 3 ∧
    (execute_task_retry
        (fun i => (Except.error (errs i) : Except ε α))).result =
      Except.error (some (errs 1)) ∧
    (execute_task_retry
        (fun i => (Except.error (errs i) : Except ε α))).calls = 2 := by
  refine ⟨?_, ?_, ?_, ?_⟩ <;>
    simp [build_application_retry, execute_task_retry, retry_with_backoff,
      retryAux]

namespace AutonomousEngine

open TaskPlanner

/-- The loop of `AutonomousEngine._execute_development_plan`, one recursion
step per plan entry.  `ex` is an oracle giving the success of
`_execute_task` (after its internal retry) for each task id, `clock` the
`datetime.now()` oracle for completion timestamps.  The result is the Python
return value, the final planner state, and the ids of the tasks that were
started, in order; a missing task or a failed `start_task` is skipped by
`continue`; a failed task of `HIGH` or `CRITICAL` priority stops the loop
with `False`; after the loop the result is
`progress["failed"] == 0 and progress["completed"] > 0` (a `none` result
stands for the `KeyError` this lookup would raise on an empty task
dictionary). -/
def execute_plan_loop (ex : String → Bool) (clock : Nat → String) :
    PlannerState → Nat → List String → Option Bool × PlannerState × List String
  | s, _, [] =>
    match get_task_progress s with
    | ProgressReport.noTasks _ _ => (none, s, [])
    | ProgressReport.report _ completed _ failed _ _ _ =>
      (some (decide (failed = 0) && decide (0 < completed)), s, [])
  | s, idx, tid :: rest =>
    match get_task_by_id s tid with
    | none => execute_plan_loop ex clock s idx rest
    | some task =>
      let (ok, s1) := start_task s tid
      if ok then
        if ex tid then
          let (_, s2) := complete_task s1 tid none (clock idx)
          let next := execute_plan_loop ex clock s2 (idx + 1) rest
          (next.1, next.2.1, tid :: next.2.2)
        else
          let (_, s2) := fail_task s1 tid "Task execution failed"
          if task.priority = TaskPriority.HIGH ∨
              task.priority = TaskPriority.CRITICAL then
            (some false, s2, [tid])
          else
            let next := execute_plan_loop ex clock s2 (idx + 1) rest
            (next.1, next.2.1, tid :: next.2.2)
      else execute_plan_loop ex clock s1 idx rest

/-- Embeds `AutonomousEngine._execute_development_plan`: an empty plan
returns `False` at once, otherwise the loop above runs. -/
def execute_development_plan (ex : String → Bool) (clock : Nat → String)
    (s : PlannerState) (plan : List String) :
    Option Bool × PlannerState × List String :=
  match plan with
  | [] => (some false, s, [])
  | tid :: rest => execute_plan_loop ex clock s 0 (tid :: rest)

/-- C4: when a started task fails, a `HIGH` or `CRITICAL` priority aborts
the plan, no further task is started and overall failure is reported, while
any other priority lets execution proceed to the remaining tasks. -/
theorem execute_plan_failure_policy (s : PlannerState) (tid : String)
    (task : Task) (rest : List String) (ex : String → Bool)
    (clock : Nat → String)
    (hfind : get_task_by_id s tid = some task)
    (hstart : (start_task s tid).1 = true)
    (hfail : ex tid = false) :
    ((task.priority = TaskPriority.HIGH ∨
        task.priority = TaskPriority.CRITICAL) →
      execute_development_plan ex clock s (tid :: rest) =
        (some false,
          (fail_task (start_task s tid).2 tid "Task execution failed").2,
          [tid])) ∧
    (task.priority ≠ TaskPriority.HIGH ∧
        task.priority ≠ TaskPriority.CRITICAL →
      execute_development_plan ex clock s (tid :: rest) =
        (let next := execute_plan_loop ex clock
          (fail_task (start_task s tid).2 tid "Task execution failed").2 1 rest
        (next.1, next.2.1, tid :: next.2.2))) := by
  rcases hP : start_task s tid with ⟨ok, s1⟩
  have hok : ok = true := by rw [hP] at hstart; exact hstart
  subst hok
  constructor
  · intro hpr
    simp [execute_development_plan, execute_plan_loop, hfind, hP, hfail, hpr]
  · rintro ⟨h1, h2⟩
    simp [execute_development_plan, execute_plan_loop, hfind, hP, hfail,
      h1, h2]

/-- A planner holding a single ready HIGH-priority task. -/
def criticalSampleState : PlannerState :=
  ⟨[("task_0000", sampleTaskAt "task_0000" TaskStatus.PENDING TaskPriority.HIGH [])], 1⟩

theorem execute_plan_failure_policy_witness :
    (get_task_by_id criticalSampleState "task_0000" =
      some (sampleTaskAt "task_0000" TaskStatus.PENDING TaskPriority.HIGH []) ∧
    (start_task criticalSampleState "task_0000").1 = true ∧
    (fun _ : String => false) "task_0000" = false) ∧
    ((((sampleTaskAt "task_0000" TaskStatus.PENDING TaskPriority.HIGH
          []).priority = TaskPriority.HIGH ∨
        (sampleTaskAt "task_0000" TaskStatus.PENDING TaskPriority.HIGH
          []).priority = TaskPriority.CRITICAL) →
      execute_development_plan (fun _ => false) (fun _ => "ts")
          criticalSampleState ["task_0000", "task_0001"] =
        (some false,
          (fail_task (start_task criticalSampleState "task_0000").2
            "task_0000" "Task execution failed").2,
          ["task_0000"])) ∧
    ((sampleTaskAt "task_0000" TaskStatus.PENDING TaskPriority.HIGH
          []).priority ≠ TaskPriority.HIGH ∧
        (sampleTaskAt "task_0000" TaskStatus.PENDING TaskPriority.HIGH
          []).priority ≠ TaskPriority.CRITICAL →
      execute_development_plan (fun _ => false) (fun _ => "ts")
          criticalSampleState ["task_0000", "task_0001"] =
        (let next := execute_plan_loop (fun _ => false) (fun _ => "ts")
          (fail_task (start_task criticalSampleState "task_0000").2
            "task_0000" "Task execution failed").2 1 ["task_0001"]
        (next.1, next.2.1, "task_0000" :: next.2.2)))) :=
  ⟨⟨by decide, by decide, rfl⟩,
    execute_plan_failure_policy criticalSampleState "task_0000" _
      ["task_0001"] (fun _ => false) (fun _ => "ts") (by decide) (by decide)
      rfl⟩

end AutonomousEngine

namespace MemoryManager

/-- A JSON value, the common shape of what `json.dump` writes and
`json.load` reads back in `memory_manager.py`; numeric leaves are modelled
as integers. -/
inductive JVal where
  | str (s : String)
  | num (n : Int)
  | bool (b : Bool)
  | null
  | arr (elems : List JVal)
  | obj (fields : List (String × JVal))

/-- The four persisted fields of a `MemoryManager` instance, as they stand
in memory: `conversation_history` is the list of entry dictionaries, the
other three are insertion-ordered dictionaries. -/
structure MemoryStore where
  conversation_history : List JVal
  code_context : List (String × JVal)
  project_state : List (String × JVal)
  learning_memory : List (String × JVal)

/-- Embeds `MemoryManager.save_memory`: the `memory_data` object written to
`memory.json`, with `json.dump`/`json.load` idealised as the identity on
JSON values. -/
def save_memory (m : MemoryStore) : JVal :=
  JVal.obj
    [("conversation_history", JVal.arr m.conversation_history),
     ("code_context", JVal.obj m.code_context),
     ("project_state", JVal.obj m.project_state),
     ("learning_memory", JVal.obj m.learning_memory)]

/-- Embeds `MemoryManager._load_memory` on a freshly constructed manager:
each persisted field is taken from the loaded object with
`memory_data.get(key, default)`.  Python does not validate the shapes of the
loaded values; this embedding returns the `.get` default for an absent key
and also for a value whose shape the typed store cannot hold, a case no
value produced by `save_memory` reaches.  A top-level value that is not an
object would make the Python `.get` calls raise, modelled as `none`. -/
def load_memory : JVal → Option MemoryStore
  | JVal.obj fields =>
    some
      { conversation_history :=
          match List.lookup "conversation_history" fields with
          | some (JVal.arr l) => l
          | _ => []
        code_context :=
          match List.lookup "code_context" fields with
          | some (JVal.obj l) => l
          | _ => []
        project_state :=
          match List.lookup "project_state" fields with
          | some (JVal.obj l) => l
          | _ => []
        learning_memory :=
          match List.lookup "learning_memory" fields with
          | some (JVal.obj l) => l
          | _ => [] }
  | _ => none

/-- C9: saving a store and loading the result into a fresh manager
reproduces the conversation list and the three dictionaries exactly, entry
for entry and in order; in particular every artifact of `code_context` keeps
its `content`, `language` and `checksum` fields. -/
theorem memory_roundtrip (m : MemoryStore) :
    load_memory (save_memory m) = some m := rfl

end MemoryManager

theorem retry_with_backoff_exhaustion_witness :
    1 ≤ 3 ∧
    ((retry_with_backoff 3 1 60
        (fun i => (Except.error i : Except Nat Unit))).calls = 3 ∧
    (retry_with_backoff 3 1 60
        (fun i => (Except.error i : Except Nat Unit))).result =
      Except.error (some 2) ∧
    (retry_with_backoff 3 1 60
        (fun i => (Except.error i : Except Nat Unit))).delays =
      (List.range 2).map (fun j => min (1 * 2 ^ j) 60) ∧
    (∀ k, 2 ≤ k → k ≤ 3 →
      (retry_with_backoff 3 1 60
          (fun i => (Except.error i : Except Nat Unit))).delays[k - 2]? =
        some (min (1 * 2 ^ (k - 2)) 60))) :=
  ⟨by decide,
    by simpa using
      retry_with_backoff_exhaustion Nat Unit 3 (by decide) 1 60 (fun i => i)⟩
